import Mathlib

/-!
Shallow embedding of the OAuth/session core of `order-wizard`
(`src/apps/server/src/oauth.rs` and `src/apps/server/src/routes/auth.rs`).

Times are integers (milliseconds since an arbitrary epoch); the two in-memory
`HashMap`s are association lists whose operations mirror `HashMap::insert`,
`HashMap::remove`, `HashMap::get` and `retain`.  Randomness (UUIDs, CSRF
tokens) and the network are parameters supplied by the caller, exactly as the
Rust code receives them from its collaborators.
-/

/-- JSON values, mirroring `serde_json::Value` (numbers modelled as integers). -/
inductive JValue where
  | null
  | bool (b : Bool)
  | num (n : Int)
  | str (s : String)
  | arr (xs : List JValue)
  | obj (fields : List (String × JValue))
deriving Repr

/-- `Value::get(key)` on objects: first binding of the key, `None` otherwise. -/
def JValue.get : JValue → String → Option JValue
  | .obj fields, key => go fields key
  | _, _ => none
where
  go : List (String × JValue) → String → Option JValue
    | [], _ => none
    | (k, v) :: rest, key => if k = key then some v else go rest key

/-- `Value::pointer("/user/id")`: descend through key `user`, then key `id`.
(Neither token parses as an array index, so arrays yield `None`, as `get`
does here.) -/
def JValue.pointerUserId (v : JValue) : Option JValue :=
  (v.get ("user")).bind (fun u => u.get ("id"))

/-- `Value::as_str`. -/
def JValue.asStr : JValue → Option String
  | .str s => some s
  | _ => none

/-- `Value::is_null`. -/
def JValue.isNull : JValue → Bool
  | .null => true
  | _ => false

/-- `OAuthUser` from oauth.rs. -/
structure OAuthUser where
  id : String
  name : Option String
  email : Option String
deriving Repr, DecidableEq

/-- `OAuthState::extract_identity` from oauth.rs, line for line. -/
def extract_identity (profile : JValue) : Option OAuthUser :=
  if profile.isNull then
    none
  else
    match ((profile.get ("sub")).orElse (fun _ => profile.get ("id"))).orElse
        (fun _ => profile.pointerUserId) with
    | none => none
    | some value =>
      match value with
      | .str text =>
        some { id := text, name := extractName profile, email := extractEmail profile }
      | .num number =>
        some { id := toString number, name := extractName profile,
               email := extractEmail profile }
      | _ => none
where
  extractEmail (profile : JValue) : Option String :=
    (profile.get ("email")).bind JValue.asStr
  extractName (profile : JValue) : Option String :=
    (((profile.get ("name")).orElse (fun _ => profile.get ("preferred_username"))).orElse
      (fun _ => profile.get ("login"))).bind JValue.asStr

/-! ### Association-list model of the two `HashMap`s -/

/-- `HashMap::get`: first binding of the key. -/
def alookup (key : String) : List (String × α) → Option α
  | [] => none
  | (k, v) :: rest => if k = key then some v else alookup key rest

/-- `HashMap::remove`: drop the binding of the key. -/
def aremove (key : String) (m : List (String × α)) : List (String × α) :=
  m.filter (fun kv => kv.1 ≠ key)

/-- `HashMap::insert`: bind the key, replacing any previous binding. -/
def ainsert (key : String) (v : α) (m : List (String × α)) : List (String × α) :=
  (key, v) :: aremove key m

/-! ### Time model: instants and durations in integer milliseconds -/

/-- `ChronoDuration::minutes(10)` in milliseconds. -/
def tenMinutesMs : Int := 600000

/-- `chrono::Duration::MAX` in milliseconds (`i64::MAX` ms). -/
def chronoMaxMs : Int := 9223372036854775807

/-- `ChronoDuration::from_std(d).ok()`: a `std::time::Duration` (here a `Nat`
of milliseconds) converts only while it fits chrono's range. -/
def chronoFromStd (d : Nat) : Option Int :=
  if (d : Int) ≤ chronoMaxMs then some (d : Int) else none

/-- chrono `DateTime`'s largest representable instant (`NaiveDateTime::MAX`,
262143-12-31 end of day; 95026601 days after the epoch, so
95026601 * 86400 * 1000 + 86399999 milliseconds) -/
def dateTimeMaxMs : Int := 8210298412799999

/-- chrono `DateTime`'s smallest representable instant (`NaiveDateTime::MIN`,
-262144-01-01T00:00:00; 96465658 days before the epoch). -/
def dateTimeMinMs : Int := -8334632851200000

/-- `DateTime::checked_add_signed`: the sum only while the resulting instant
stays inside `DateTime`'s representable range.  chrono's `+` operator is
this followed by `.expect(...)`, so a `none` here is a panic at runtime. -/
def checkedAddSigned (now d : Int) : Option Int :=
  if dateTimeMinMs ≤ now + d ∧ now + d ≤ dateTimeMaxMs then some (now + d)
  else none

/-! ### Pending-auth store (oauth.rs `pending` map) -/

/-- `PendingAuth` from oauth.rs. -/
structure PendingAuth where
  verifier : String
  nonce : String
  created_at : Int
deriving Repr, DecidableEq

abbrev PendingStore := List (String × PendingAuth)

/-- `OAuthState::store_pending`: insert with `created_at = Utc::now()`. -/
def store_pending (st : PendingStore) (state verifier nonce : String)
    (now : Int) : PendingStore :=
  ainsert state { verifier := verifier, nonce := nonce, created_at := now } st

/-- `OAuthState::take_pending`: `remove` always happens; the removed entry is
honored only when its age is at most ten minutes.  Returns the result and the
store after the call. -/
def take_pending (st : PendingStore) (state : String) (now : Int) :
    Option (String × String) × PendingStore :=
  ((alookup state st).bind fun pending =>
      if now - pending.created_at > tenMinutesMs then none
      else some (pending.verifier, pending.nonce),
   aremove state st)

/-! ### Session store (oauth.rs `sessions` map) -/

/-- `AuthSession` from oauth.rs. -/
structure AuthSession where
  user : OAuthUser
  expires_at : Option Int
  raw_profile : JValue
deriving Repr

abbrev SessionStore := List (String × AuthSession)

/-- `SessionSnapshot` from oauth.rs. -/
structure SessionSnapshot where
  user : OAuthUser
  expires_at : Option Int
  profile : JValue
deriving Repr

/-- `OAuthState::create_session`.  The fresh UUID is a parameter.  The ttl is
taken through `ChronoDuration::from_std(..).ok()` — a ttl beyond chrono's
`TimeDelta` range silently becomes no expiry — and then `Utc::now() + duration`
computes `expires_at`; that `+` is `checked_add_signed(..).expect(..)`, which
panics when the sum leaves `DateTime`'s range, so the whole call returns
`none` (panic, no session stored) in that case. -/
def create_session (st : SessionStore) (session_id : String) (user : OAuthUser)
    (expires_in : Option Nat) (raw_profile : JValue) (now : Int) :
    Option SessionStore :=
  match expires_in.bind chronoFromStd with
  | none =>
    some (ainsert session_id
      { user := user, expires_at := none, raw_profile := raw_profile } st)
  | some duration =>
    match checkedAddSigned now duration with
    | none => none
    | some expires_at =>
      some (ainsert session_id
        { user := user, expires_at := some expires_at,
          raw_profile := raw_profile } st)

/-- `OAuthState::remove_session`. -/
def remove_session (st : SessionStore) (session_id : String) : SessionStore :=
  aremove session_id st

/-- `OAuthState::session_snapshot`: read-only lookup, no expiry check. -/
def session_snapshot (st : SessionStore) (session_id : String) :
    Option SessionSnapshot :=
  (alookup session_id st).map fun session =>
    { user := session.user, expires_at := session.expires_at,
      profile := session.raw_profile }

/-- `OAuthState::session_user_id`: the cookie jar is modelled as the value of
the session cookie, when present.  Enforces expiry: `now > expires_at` hides
the session. -/
def session_user_id (st : SessionStore) (cookie : Option String) (now : Int) :
    Option String :=
  cookie.bind fun session_id =>
    (alookup session_id st).bind fun session =>
      match session.expires_at with
      | some expires_at => if now > expires_at then none else some session.user.id
      | none => some session.user.id

/-! ### Cleanup task (oauth.rs `cleanup_expired`) -/

/-- Retention test for pending entries: age at most ten minutes. -/
def pendingFresh (now : Int) (pending : PendingAuth) : Bool :=
  now - pending.created_at ≤ tenMinutesMs

/-- Retention test for sessions: `expires_at.is_none_or(|e| e > now)`. -/
def sessionLive (now : Int) (session : AuthSession) : Bool :=
  match session.expires_at with
  | none => true
  | some expires_at => expires_at > now

/-- The two in-memory stores held by `OAuthState`. -/
structure Stores where
  pending : PendingStore
  sessions : SessionStore

/-- `OAuthState::cleanup_expired`: sweep both maps, reporting the two removed
counts that the code logs. -/
def cleanup_expired (st : Stores) (now : Int) : Stores × Nat × Nat :=
  let pending2 := st.pending.filter (fun kv => pendingFresh now kv.2)
  let sessions2 := st.sessions.filter (fun kv => sessionLive now kv.2)
  (⟨pending2, sessions2⟩,
   st.pending.length - pending2.length,
   st.sessions.length - sessions2.length)

/-! ### HTTP layer (routes/auth.rs) -/

/-- `ApiError` from error.rs. -/
inductive ApiError where
  | NotFound
  | Database (msg : String)
  | Unauthorized
  | Auth (msg : String)
  | Http (msg : String)
  | Validation (msg : String)
deriving Repr, DecidableEq

/-- `AuthCallbackQuery` from routes/auth.rs. -/
structure CallbackQuery where
  code : Option String
  state : Option String
  error : Option String
  error_description : Option String
deriving Repr, DecidableEq

/-- The slice of `CoreTokenResponse` the callback uses: the access token and
`expires_in()` (a std duration, in milliseconds). -/
structure TokenResponse where
  access_token : String
  expires_in : Option Nat
deriving Repr

/-- The external OIDC provider, as seen by `exchange_code`/`fetch_userinfo`:
both calls either return a value or a `String` error. -/
structure Provider where
  exchange_code : String → String → Except String TokenResponse
  fetch_userinfo : String → Except String JValue

/-- The redirect configuration held by `OAuthState`. -/
structure OAuthCfg where
  success_redirect : String
  failure_redirect : Option String
deriving Repr, DecidableEq

/-- The cookie set alongside a redirect: the session cookie carrying the new
session id (`build_cookie`) or the deleting cookie (`build_logout_cookie`). -/
inductive CookieAction where
  | session (id : String)
  | logout
deriving Repr, DecidableEq

/-- What the callback handler hands back to the browser. -/
inductive AuthOutcome where
  | redirect (target : String) (cookie : CookieAction)
  | errorResponse (e : ApiError)
deriving Repr, DecidableEq

/-- `auth_redirect` from routes/auth.rs: success redirects to the configured
success URL with the session cookie; failure redirects to the configured
failure URL with the logout cookie when one is set, else propagates. -/
def auth_redirect (cfg : OAuthCfg) (result : Except ApiError String) :
    Except ApiError AuthOutcome :=
  match result with
  | .ok session_id => .ok (.redirect cfg.success_redirect (.session session_id))
  | .error e =>
    match cfg.failure_redirect with
    | some target => .ok (.redirect target .logout)
    | none => .error e

/-- Error messages used by `handle_auth_callback`. -/
def msgMissingCode : String := "Missing authorization code"

def msgMissingState : String := "Missing state parameter"

def msgUnknownState : String := "Unknown or expired state parameter"

def msgNoIdentity : String := "Unable to determine user identity from profile"

def msgOAuthFailed : String := "OAuth authorization failed"

/-- `handle_auth_callback` from routes/auth.rs.  The fresh session UUID is a
parameter; the pair returned is the handler result together with the stores
after the call (the `?` early returns leave the stores as they stand at that
point).  The outer `Option` carries the one panic the handler can hit — the
`DateTime + TimeDelta` overflow inside `create_session` — in which case no
response is produced. -/
def handle_auth_callback (cfg : OAuthCfg) (provider : Provider)
    (query : CallbackQuery) (st : Stores) (freshSessionId : String)
    (now : Int) : Option (Except ApiError AuthOutcome × Stores) :=
  match query.error with
  | some error =>
    let description := query.error_description.getD msgOAuthFailed
    some (auth_redirect cfg (.error (.Auth (error ++ (": ") ++ description))), st)
  | none =>
    match query.code with
    | none => some (.error (.Auth msgMissingCode), st)
    | some code =>
      match query.state with
      | none => some (.error (.Auth msgMissingState), st)
      | some state_param =>
        let taken := take_pending st.pending state_param now
        let st1 : Stores := { st with pending := taken.2 }
        match taken.1 with
        | none => some (.error (.Auth msgUnknownState), st1)
        | some (verifier, _nonce) =>
          match provider.exchange_code code verifier with
          | .error e => some (.error (.Auth e), st1)
          | .ok token_response =>
            match provider.fetch_userinfo token_response.access_token with
            | .error e => some (.error (.Http e), st1)
            | .ok profile =>
              match extract_identity profile with
              | none => some (.error (.Auth msgNoIdentity), st1)
              | some identity =>
                match create_session st1.sessions freshSessionId identity
                    token_response.expires_in profile now with
                | none => none
                | some sessions2 =>
                  some (auth_redirect cfg (.ok freshSessionId),
                    { st1 with sessions := sessions2 })

/-- `current_session` from routes/auth.rs: cookie value → `session_snapshot`,
`Unauthorized` when the cookie is absent or the id unknown.  No expiry check
and no clock: the snapshot path never consults `Utc::now()`. -/
def current_session (st : SessionStore) (cookie : Option String) :
    Except ApiError SessionSnapshot :=
  match cookie with
  | none => .error .Unauthorized
  | some session_id =>
    match session_snapshot st session_id with
    | none => .error .Unauthorized
    | some snapshot => .ok snapshot

/-- How axum presents the handler result to the user: an `Err` is rendered by
`ApiError::into_response` as a structured error body, never a redirect. -/
def renderCallback (r : Except ApiError AuthOutcome) : AuthOutcome :=
  match r with
  | .ok outcome => outcome
  | .error e => .errorResponse e

/-! ### Helper lemmas on the association-list maps -/

theorem alookup_aremove_self (k : String) (m : List (String × α)) :
    alookup k (aremove k m) = none := by
  induction m with
  | nil => rfl
  | cons kv rest ih =>
    rw [aremove, List.filter_cons]
    by_cases h : kv.1 = k
    · simpa [h, aremove] using ih
    · simpa [h, aremove, alookup] using ih

theorem alookup_filter_value (f : α → Bool) (k : String)
    (m : List (String × α)) (v : α) (hl : alookup k m = some v)
    (hv : f v = true) :
    alookup k (m.filter fun kv => f kv.2) = some v := by
  induction m with
  | nil => exact absurd hl (by simp [alookup])
  | cons kv rest ih =>
    rw [alookup] at hl
    rw [List.filter_cons]
    by_cases h : kv.1 = k
    · rw [if_pos h] at hl
      obtain rfl : kv.2 = v := by injection hl
      simp [hv, alookup, h]
    · rw [if_neg h] at hl
      by_cases hf : f kv.2 = true
      · simpa [hf, alookup, h] using ih hl
      · simpa [hf] using ih hl

theorem filter_self_idem (p : α → Bool) (l : List α) :
    (l.filter p).filter p = l.filter p := by
  induction l with
  | nil => rfl
  | cons a l ih =>
    rw [List.filter_cons]
    by_cases h : p a = true
    · simp only [h, if_true, List.filter_cons, ih]
    · simp only [h, Bool.false_eq_true, if_false, ih]

theorem get_some_not_null {profile : JValue} {k : String} {v : JValue}
    (h : profile.get k = some v) : profile.isNull = false := by
  cases profile with
  | null => simp [JValue.get] at h
  | bool b => rfl
  | num n => rfl
  | str s => rfl
  | arr xs => rfl
  | obj fields => rfl

theorem pointer_some_not_null {profile v : JValue}
    (h : profile.pointerUserId = some v) : profile.isNull = false := by
  cases profile with
  | null => simp [JValue.pointerUserId, JValue.get] at h
  | bool b => rfl
  | num n => rfl
  | str s => rfl
  | arr xs => rfl
  | obj fields => rfl

/-! ### Claims -/

/-- C1: `take_pending` succeeds, returning the stored verifier and nonce,
exactly when the entry is present with age at most ten minutes; it returns
nothing when the entry is absent or older; in every case the entry is gone
afterwards, so a second `take_pending` on the same state can never succeed. -/
theorem take_pending_consume_spec (st : PendingStore) (state : String)
    (now : Int) :
    (∀ p, alookup state st = some p → now - p.created_at ≤ tenMinutesMs →
      (take_pending st state now).1 = some (p.verifier, p.nonce)) ∧
    (∀ p, alookup state st = some p → now - p.created_at > tenMinutesMs →
      (take_pending st state now).1 = none) ∧
    (alookup state st = none → (take_pending st state now).1 = none) ∧
    alookup state (take_pending st state now).2 = none ∧
    (∀ now2, (take_pending (take_pending st state now).2 state now2).1 = none) := by
  refine ⟨?_, ?_, ?_, ?_, ?_⟩
  · intro p hp hage
    simp [take_pending, hp, not_lt.mpr hage]
  · intro p hp hage
    simp [take_pending, hp, hage]
  · intro hp
    simp [take_pending, hp]
  · simpa [take_pending] using alookup_aremove_self state st
  · intro now2
    simp [take_pending, alookup_aremove_self state st]

/-- Closed instance of C1: a state stored at time 0 and taken at time 5
yields its verifier and nonce. -/
theorem take_pending_consume_spec_witness :
    alookup ("s") (store_pending [] ("s") ("v") ("n") 0) =
      some { verifier := ("v"), nonce := ("n"), created_at := 0 } ∧
    (take_pending (store_pending [] ("s") ("v") ("n") 0) ("s") 5).1 =
      some (("v"), ("n")) := by
  refine ⟨by decide, ?_⟩
  exact (take_pending_consume_spec (store_pending [] ("s") ("v") ("n") 0)
    ("s") 5).1 { verifier := ("v"), nonce := ("n"), created_at := 0 }
    (by decide) (by decide)

/-- C9: `cleanup_expired` is an idempotent sweep: run twice at the same
instant with no entries added in between, the second run removes zero pending
entries and zero sessions, and leaves the stores exactly as the first run
left them. -/
theorem cleanup_expired_idempotent (st : Stores) (now : Int) :
    (cleanup_expired (cleanup_expired st now).1 now).2.1 = 0 ∧
    (cleanup_expired (cleanup_expired st now).1 now).2.2 = 0 ∧
    (cleanup_expired (cleanup_expired st now).1 now).1 =
      (cleanup_expired st now).1 := by
  refine ⟨?_, ?_, ?_⟩ <;>
    simp [cleanup_expired, filter_self_idem]

/-- C2 counterexample: a session whose `expires_at` (100) is in the past at
time 200 is hidden by `session_user_id`, yet the snapshot-based
`current_session` read path still returns it as a 200-OK snapshot — so not
every read path withholds expired sessions. -/
theorem expired_session_returned_by_snapshot :
    session_user_id
      [(("sid"), { user := { id := ("u"), name := none, email := none },
                   expires_at := some 100, raw_profile := JValue.null })]
      (some ("sid")) 200 = none ∧
    current_session
      [(("sid"), { user := { id := ("u"), name := none, email := none },
                   expires_at := some 100, raw_profile := JValue.null })]
      (some ("sid")) =
      .ok { user := { id := ("u"), name := none, email := none },
            expires_at := some 100, profile := JValue.null } := by
  exact ⟨rfl, rfl⟩

/-- C2 amended: expiry is enforced exclusively on the authorizing lookup —
for every stored session that is expired at `now`, `session_user_id`
(resolve_identity) returns nothing, while `session_snapshot` via the
`current_session` route returns the session regardless of expiry. -/
theorem expiry_enforced_only_on_resolve (st : SessionStore) (sid : String)
    (session : AuthSession) (now e : Int)
    (hl : alookup sid st = some session)
    (he : session.expires_at = some e) (hexp : now > e) :
    session_user_id st (some sid) now = none ∧
    current_session st (some sid) =
      .ok { user := session.user, expires_at := session.expires_at,
            profile := session.raw_profile } := by
  constructor
  · simp [session_user_id, hl, he, hexp]
  · simp [current_session, session_snapshot, hl]

/-- Closed instance of the amended C2 at the concrete expired store. -/
theorem expiry_enforced_only_on_resolve_witness :
    session_user_id
      [(("sid"), { user := { id := ("u"), name := none, email := none },
                   expires_at := some 100, raw_profile := JValue.null })]
      (some ("sid")) 200 = none ∧
    current_session
      [(("sid"), { user := { id := ("u"), name := none, email := none },
                   expires_at := some 100, raw_profile := JValue.null })]
      (some ("sid")) =
      .ok { user := { id := ("u"), name := none, email := none },
            expires_at := some 100, profile := JValue.null } :=
  expiry_enforced_only_on_resolve
    [(("sid"), { user := { id := ("u"), name := none, email := none },
                 expires_at := some 100, raw_profile := JValue.null })]
    ("sid")
    { user := { id := ("u"), name := none, email := none },
      expires_at := some 100, raw_profile := JValue.null }
    200 100 rfl rfl (by decide)

/-- C6 counterexample: a ttl of `2 ^ 63` milliseconds does not fit chrono's
`TimeDelta` range, so `create_session` silently stores the session with no
expiry (no panic: the addition is never reached), and `session_user_id`
still returns the identity at an instant strictly after `created_at + ttl` —
not "not found" as the claim states. -/
theorem huge_ttl_session_never_expires :
    (create_session [] ("sid") { id := ("u"), name := none, email := none }
        (some 9223372036854775808) JValue.null 0).map
      (fun st2 => session_user_id st2 (some ("sid")) 9223372036854775908) =
      some (some ("u")) := by
  rfl

/-- C6 amended: for every session created with ttl `T` that fits chrono's
`TimeDelta` range (at most `i64::MAX` milliseconds) and whose
`created_at + T` stays inside `DateTime`'s representable range, the session
is created and `session_user_id` (resolve_identity) returns the identity at
every instant before `created_at + T` and nothing at every instant after;
when `T` fits `TimeDelta` but `created_at + T` leaves `DateTime`'s range,
`create_session` panics on the `DateTime + TimeDelta` overflow and no
session exists; when `T` exceeds `TimeDelta`'s range the session is silently
stored without expiry and the identity is returned at every instant. -/
theorem session_ttl_expiry (st : SessionStore) (sid : String)
    (user : OAuthUser) (profile : JValue) (T : Nat) (now t : Int) :
    ((T : Int) ≤ chronoMaxMs → dateTimeMinMs ≤ now + (T : Int) →
      now + (T : Int) ≤ dateTimeMaxMs →
      (t < now + (T : Int) →
        (create_session st sid user (some T) profile now).map
          (fun st2 => session_user_id st2 (some sid) t) = some (some user.id)) ∧
      (t > now + (T : Int) →
        (create_session st sid user (some T) profile now).map
          (fun st2 => session_user_id st2 (some sid) t) = some none)) ∧
    ((T : Int) ≤ chronoMaxMs →
      (now + (T : Int) > dateTimeMaxMs ∨ now + (T : Int) < dateTimeMinMs) →
      create_session st sid user (some T) profile now = none) ∧
    ((T : Int) > chronoMaxMs →
      (create_session st sid user (some T) profile now).map
        (fun st2 => session_user_id st2 (some sid) t) = some (some user.id)) := by
  refine ⟨?_, ?_, ?_⟩
  · intro hT hmin hmax
    constructor
    · intro ht
      simp [create_session, chronoFromStd, hT, checkedAddSigned, hmin, hmax,
        ainsert, session_user_id, alookup, not_lt.mpr (le_of_lt ht)]
    · intro ht
      simp [create_session, chronoFromStd, hT, checkedAddSigned, hmin, hmax,
        ainsert, session_user_id, alookup, ht]
  · intro hT hout
    have hcond : ¬(dateTimeMinMs ≤ now + (T : Int) ∧
        now + (T : Int) ≤ dateTimeMaxMs) := by
      rcases hout with h | h
      · exact fun hc => absurd hc.2 (not_le.mpr h)
      · exact fun hc => absurd hc.1 (not_le.mpr h)
    simp [create_session, chronoFromStd, hT, checkedAddSigned, hcond]
  · intro hT
    simp [create_session, chronoFromStd, not_le.mpr hT, ainsert,
      session_user_id, alookup]

/-- Closed instance of the amended C6: ttl 1000 ms, created at 0 — the
identity is visible at instant 500 and gone at instant 2000; a ttl of
9 * 10 ^ 15 ms fits `TimeDelta` but overflows `DateTime`, so creation
panics and yields no store. -/
theorem session_ttl_expiry_witness :
    (create_session [] ("sid") { id := ("u"), name := none, email := none }
        (some 1000) JValue.null 0).map
      (fun st2 => session_user_id st2 (some ("sid")) 500) =
      some (some ("u")) ∧
    (create_session [] ("sid") { id := ("u"), name := none, email := none }
        (some 1000) JValue.null 0).map
      (fun st2 => session_user_id st2 (some ("sid")) 2000) = some none ∧
    create_session [] ("sid") { id := ("u"), name := none, email := none }
      (some 9000000000000000) JValue.null 0 = none :=
  ⟨((session_ttl_expiry [] ("sid") { id := ("u"), name := none, email := none }
      JValue.null 1000 0 500).1 (by decide) (by decide) (by decide)).1
      (by decide),
   ((session_ttl_expiry [] ("sid") { id := ("u"), name := none, email := none }
      JValue.null 1000 0 2000).1 (by decide) (by decide) (by decide)).2
      (by decide),
   (session_ttl_expiry [] ("sid") { id := ("u"), name := none, email := none }
      JValue.null 9000000000000000 0 0).2.1 (by decide)
      (Or.inl (by decide))⟩

/-- C7: a session created with no ttl is created without panic (the ttl-free
path performs no date addition) and is returned by `session_user_id` at
every instant (expiry never hides it); the cleanup sweep never removes a
session whose `expires_at` is `None`; only explicit removal makes
`session_user_id` return nothing for it. -/
theorem no_ttl_session_persists :
    (∀ (st : SessionStore) sid user profile now t,
      (create_session st sid user none profile now).map
        (fun st2 => session_user_id st2 (some sid) t) = some (some user.id)) ∧
    (∀ (pending : PendingStore) (sessions : SessionStore) now sid session,
      alookup sid sessions = some session → session.expires_at = none →
      alookup sid ((cleanup_expired ⟨pending, sessions⟩ now).1.sessions) =
        some session) ∧
    (∀ (st : SessionStore) sid t,
      session_user_id (remove_session st sid) (some sid) t = none) := by
  refine ⟨?_, ?_, ?_⟩
  · intro st sid user profile now t
    simp [create_session, chronoFromStd, ainsert, session_user_id, alookup]
  · intro pending sessions now sid session hl he
    have hlive : sessionLive now session = true := by
      simp [sessionLive, he]
    simpa [cleanup_expired] using
      alookup_filter_value (sessionLive now) sid sessions session hl hlive
  · intro st sid t
    simp [session_user_id, remove_session, alookup_aremove_self]

/-- Closed instance of C7: a ttl-free session resolves long after creation,
survives the sweep, and disappears only on explicit removal. -/
theorem no_ttl_session_persists_witness :
    (create_session [] ("sid") { id := ("u"), name := none, email := none }
        none JValue.null 0).map
      (fun st2 => session_user_id st2 (some ("sid")) 999999999999) =
      some (some ("u")) ∧
    alookup ("sid")
      ((cleanup_expired
        ⟨[], [(("sid"), { user := { id := ("u"), name := none, email := none },
                          expires_at := none, raw_profile := JValue.null })]⟩
        999999999999).1.sessions) =
      some { user := { id := ("u"), name := none, email := none },
             expires_at := none, raw_profile := JValue.null } ∧
    session_user_id
      (remove_session
        [(("sid"), { user := { id := ("u"), name := none, email := none },
                     expires_at := none, raw_profile := JValue.null })]
        ("sid")) (some ("sid")) 0 = none :=
  ⟨no_ttl_session_persists.1 [] ("sid")
      { id := ("u"), name := none, email := none } JValue.null 0 999999999999,
   no_ttl_session_persists.2.1 [] _ 999999999999 ("sid")
      { user := { id := ("u"), name := none, email := none },
        expires_at := none, raw_profile := JValue.null } rfl rfl,
   no_ttl_session_persists.2.2 _ ("sid") 0⟩

/-- C3 counterexample: with a failure redirect configured (`/fail`), a
callback carrying an unknown state (an Auth-kind failure) is rendered as a
structured error response, not as a redirect to the configured failure
page — the `?` early returns bypass `auth_redirect`. -/
theorem auth_error_bypasses_failure_redirect :
    (handle_auth_callback
        { success_redirect := ("/ok"), failure_redirect := some ("/fail") }
        { exchange_code := fun _ _ => Except.error ("e"),
          fetch_userinfo := fun _ => Except.error ("e") }
        { code := some ("c"), state := some ("s"), error := none,
          error_description := none }
        ⟨[], []⟩ ("fresh") 0).map (fun r => renderCallback r.1) =
      some (AuthOutcome.errorResponse (.Auth msgUnknownState)) ∧
    AuthOutcome.errorResponse (ApiError.Auth msgUnknownState) ≠
      AuthOutcome.redirect ("/fail") CookieAction.logout := by
  exact ⟨rfl, by decide⟩

/-- C3 amended: only the provider-reported-error branch of the callback uses
the configured failure redirect (with the logout cookie); when none is
configured that branch returns the structured Auth error; every other
failure that the handler propagates as `Err` — unknown/expired state among
them — is rendered as a structured error response even when a failure
redirect is configured. -/
theorem callback_failure_rendering (cfg : OAuthCfg) (provider : Provider)
    (query : CallbackQuery) (st : Stores) (fresh : String) (now : Int) :
    (∀ err target, query.error = some err →
      cfg.failure_redirect = some target →
      (handle_auth_callback cfg provider query st fresh now).map
        (fun r => renderCallback r.1) = some (.redirect target .logout)) ∧
    (∀ err, query.error = some err → cfg.failure_redirect = none →
      (handle_auth_callback cfg provider query st fresh now).map
        (fun r => renderCallback r.1) =
        some (.errorResponse
          (.Auth (err ++ (": ") ++ query.error_description.getD msgOAuthFailed)))) ∧
    (∀ code state_param, query.error = none → query.code = some code →
      query.state = some state_param →
      (take_pending st.pending state_param now).1 = none →
      (handle_auth_callback cfg provider query st fresh now).map
        (fun r => renderCallback r.1) =
        some (.errorResponse (.Auth msgUnknownState))) ∧
    (∀ r e, handle_auth_callback cfg provider query st fresh now = some r →
      r.1 = .error e → renderCallback r.1 = .errorResponse e) := by
  refine ⟨?_, ?_, ?_, ?_⟩
  · intro err target herr htarget
    simp [handle_auth_callback, herr, auth_redirect, htarget, renderCallback]
  · intro err herr hnone
    simp [handle_auth_callback, herr, auth_redirect, hnone, renderCallback]
  · intro code state_param herr hcode hstate htaken
    simp [handle_auth_callback, herr, hcode, hstate, htaken, renderCallback]
  · intro r e _ he
    simp [he, renderCallback]

/-- Closed instance of the amended C3: a provider-reported error redirects to
the configured failure page, while an unknown state renders a structured
error under the same configuration. -/
theorem callback_failure_rendering_witness :
    (handle_auth_callback
        { success_redirect := ("/ok"), failure_redirect := some ("/fail") }
        { exchange_code := fun _ _ => Except.error ("e"),
          fetch_userinfo := fun _ => Except.error ("e") }
        { code := none, state := none, error := some ("access_denied"),
          error_description := none }
        ⟨[], []⟩ ("fresh") 0).map (fun r => renderCallback r.1) =
      some (AuthOutcome.redirect ("/fail") CookieAction.logout) ∧
    (handle_auth_callback
        { success_redirect := ("/ok"), failure_redirect := some ("/fail") }
        { exchange_code := fun _ _ => Except.error ("e"),
          fetch_userinfo := fun _ => Except.error ("e") }
        { code := some ("c"), state := some ("s"), error := none,
          error_description := none }
        ⟨[], []⟩ ("fresh") 0).map (fun r => renderCallback r.1) =
      some (AuthOutcome.errorResponse (.Auth msgUnknownState)) :=
  ⟨(callback_failure_rendering
      { success_redirect := ("/ok"), failure_redirect := some ("/fail") }
      { exchange_code := fun _ _ => Except.error ("e"),
        fetch_userinfo := fun _ => Except.error ("e") }
      { code := none, state := none, error := some ("access_denied"),
        error_description := none }
      ⟨[], []⟩ ("fresh") 0).1 ("access_denied") ("/fail") rfl rfl,
   (callback_failure_rendering
      { success_redirect := ("/ok"), failure_redirect := some ("/fail") }
      { exchange_code := fun _ _ => Except.error ("e"),
        fetch_userinfo := fun _ => Except.error ("e") }
      { code := some ("c"), state := some ("s"), error := none,
        error_description := none }
      ⟨[], []⟩ ("fresh") 0).2.2.1 ("c") ("s") rfl rfl rfl rfl⟩

/-- C5: a callback whose state `take_pending` does not honor (never stored,
already consumed, or expired) yields the Auth "unknown or expired state"
error, and the session store is exactly as before the call: no session is
created. -/
theorem unknown_state_no_session (cfg : OAuthCfg) (provider : Provider)
    (st : Stores) (fresh : String) (now : Int) (code state_param : String)
    (h : (take_pending st.pending state_param now).1 = none) :
    (handle_auth_callback cfg provider
      { code := some code, state := some state_param, error := none,
        error_description := none } st fresh now).map (fun r => r.1) =
      some (.error (.Auth msgUnknownState)) ∧
    (handle_auth_callback cfg provider
      { code := some code, state := some state_param, error := none,
        error_description := none } st fresh now).map
      (fun r => r.2.sessions) = some st.sessions := by
  constructor <;> simp [handle_auth_callback, h]

/-- Closed instance of C5: an empty pending store rejects any state and the
session store stays empty. -/
theorem unknown_state_no_session_witness :
    (handle_auth_callback
      { success_redirect := ("/ok"), failure_redirect := none }
      { exchange_code := fun _ _ => Except.error ("e"),
        fetch_userinfo := fun _ => Except.error ("e") }
      { code := some ("c"), state := some ("s"), error := none,
        error_description := none }
      ⟨[], []⟩ ("fresh") 0).map (fun r => r.1) =
      some (.error (.Auth msgUnknownState)) ∧
    (handle_auth_callback
      { success_redirect := ("/ok"), failure_redirect := none }
      { exchange_code := fun _ _ => Except.error ("e"),
        fetch_userinfo := fun _ => Except.error ("e") }
      { code := some ("c"), state := some ("s"), error := none,
        error_description := none }
      ⟨[], []⟩ ("fresh") 0).map (fun r => r.2.sessions) =
      some ([] : SessionStore) :=
  unknown_state_no_session
    { success_redirect := ("/ok"), failure_redirect := none }
    { exchange_code := fun _ _ => Except.error ("e"),
      fetch_userinfo := fun _ => Except.error ("e") }
    ⟨[], []⟩ ("fresh") 0 ("c") ("s") rfl

/-- C8: once a stored state is honored, a failing code-for-token exchange is
surfaced as an Auth-kind error carrying the provider's message, while a
failing userinfo fetch after a successful exchange is surfaced as an
Http-kind error — a distinct kind from Auth. -/
theorem exchange_and_userinfo_error_kinds (cfg : OAuthCfg)
    (provider : Provider) (query : CallbackQuery) (st : Stores)
    (fresh : String) (now : Int) (code state_param verifier nonce : String)
    (herr : query.error = none) (hcode : query.code = some code)
    (hstate : query.state = some state_param)
    (htaken : (take_pending st.pending state_param now).1 =
      some (verifier, nonce)) :
    (∀ msg, provider.exchange_code code verifier = .error msg →
      (handle_auth_callback cfg provider query st fresh now).map
        (fun r => r.1) = some (.error (.Auth msg))) ∧
    (∀ tr msg, provider.exchange_code code verifier = .ok tr →
      provider.fetch_userinfo tr.access_token = .error msg →
      (handle_auth_callback cfg provider query st fresh now).map
        (fun r => r.1) = some (.error (.Http msg))) := by
  constructor
  · intro msg hx
    simp [handle_auth_callback, herr, hcode, hstate, htaken, hx]
  · intro tr msg hx hu
    simp [handle_auth_callback, herr, hcode, hstate, htaken, hx, hu]

/-- Closed instance of C8: a rejecting token endpoint yields an Auth error; a
failing userinfo endpoint after a successful exchange yields an Http error. -/
theorem exchange_and_userinfo_error_kinds_witness :
    (handle_auth_callback
      { success_redirect := ("/ok"), failure_redirect := none }
      { exchange_code := fun _ _ => Except.error ("boom"),
        fetch_userinfo := fun _ => Except.ok JValue.null }
      { code := some ("c"), state := some ("s"), error := none,
        error_description := none }
      ⟨[(("s"), { verifier := ("v"), nonce := ("n"), created_at := 0 })], []⟩
      ("fresh") 0).map (fun r => r.1) = some (.error (.Auth ("boom"))) ∧
    (handle_auth_callback
      { success_redirect := ("/ok"), failure_redirect := none }
      { exchange_code := fun _ _ =>
          Except.ok { access_token := ("tok"), expires_in := none },
        fetch_userinfo := fun _ => Except.error ("down") }
      { code := some ("c"), state := some ("s"), error := none,
        error_description := none }
      ⟨[(("s"), { verifier := ("v"), nonce := ("n"), created_at := 0 })], []⟩
      ("fresh") 0).map (fun r => r.1) = some (.error (.Http ("down"))) :=
  ⟨(exchange_and_userinfo_error_kinds
      { success_redirect := ("/ok"), failure_redirect := none }
      { exchange_code := fun _ _ => Except.error ("boom"),
        fetch_userinfo := fun _ => Except.ok JValue.null }
      { code := some ("c"), state := some ("s"), error := none,
        error_description := none }
      ⟨[(("s"), { verifier := ("v"), nonce := ("n"), created_at := 0 })], []⟩
      ("fresh") 0 ("c") ("s") ("v") ("n") rfl rfl rfl rfl).1 ("boom") rfl,
   (exchange_and_userinfo_error_kinds
      { success_redirect := ("/ok"), failure_redirect := none }
      { exchange_code := fun _ _ =>
          Except.ok { access_token := ("tok"), expires_in := none },
        fetch_userinfo := fun _ => Except.error ("down") }
      { code := some ("c"), state := some ("s"), error := none,
        error_description := none }
      ⟨[(("s"), { verifier := ("v"), nonce := ("n"), created_at := 0 })], []⟩
      ("fresh") 0 ("c") ("s") ("v") ("n") rfl rfl rfl rfl).2
      { access_token := ("tok"), expires_in := none } ("down") rfl rfl⟩

/-- C4: `extract_identity` maps `null` and `{}` to nothing; maps the two
worked examples as the spec states; returns nothing when none of `sub`,
`id`, `user.id` is present; derives the id from `sub` (string kept, number
stringified), falling back to `id`, then to the nested `user.id`; and on
every successful extraction takes the email only as a plain string under
`email` and the name as a plain string under `name`, falling back to
`preferred_username`, then `login`. -/
theorem extract_identity_characterization :
    extract_identity JValue.null = none ∧
    extract_identity (JValue.obj []) = none ∧
    extract_identity (JValue.obj
      [(("sub"), JValue.str ("abc123")), (("email"), JValue.str ("a@b.com")),
       (("name"), JValue.str ("A"))]) =
      some { id := ("abc123"), name := some ("A"), email := some ("a@b.com") } ∧
    extract_identity (JValue.obj [(("id"), JValue.num 42)]) =
      some { id := ("42"), name := none, email := none } ∧
    (∀ profile, profile.get ("sub") = none → profile.get ("id") = none →
      profile.pointerUserId = none → extract_identity profile = none) ∧
    (∀ profile s, profile.get ("sub") = some (JValue.str s) →
      (extract_identity profile).map OAuthUser.id = some s) ∧
    (∀ profile n, profile.get ("sub") = some (JValue.num n) →
      (extract_identity profile).map OAuthUser.id = some (toString n)) ∧
    (∀ profile s, profile.get ("sub") = none →
      profile.get ("id") = some (JValue.str s) →
      (extract_identity profile).map OAuthUser.id = some s) ∧
    (∀ profile s, profile.get ("sub") = none → profile.get ("id") = none →
      profile.pointerUserId = some (JValue.str s) →
      (extract_identity profile).map OAuthUser.id = some s) ∧
    (∀ profile u, extract_identity profile = some u →
      u.email = (profile.get ("email")).bind JValue.asStr ∧
      u.name = (((profile.get ("name")).orElse
        (fun _ => profile.get ("preferred_username"))).orElse
        (fun _ => profile.get ("login"))).bind JValue.asStr) := by
  refine ⟨rfl, rfl, rfl, rfl, ?_, ?_, ?_, ?_, ?_, ?_⟩
  · intro profile h1 h2 h3
    by_cases hn : profile.isNull
    · simp [extract_identity, hn]
    · simp [extract_identity, hn, h1, h2, h3]
  · intro profile s h
    simp [extract_identity, get_some_not_null h, h]
  · intro profile n h
    simp [extract_identity, get_some_not_null h, h]
  · intro profile s h1 h2
    simp [extract_identity, get_some_not_null h2, h1, h2]
  · intro profile s h1 h2 h3
    simp [extract_identity, pointer_some_not_null h3, h1, h2, h3]
  · intro profile u h
    by_cases hn : profile.isNull
    · simp [extract_identity, hn] at h
    · cases hchain : ((profile.get ("sub")).orElse
          (fun _ => profile.get ("id"))).orElse
          (fun _ => profile.pointerUserId) with
      | none => simp [extract_identity, hn, hchain] at h
      | some v =>
        cases v with
        | str s =>
          simp [extract_identity, hn, hchain] at h
          cases h
          exact ⟨rfl, rfl⟩
        | num n =>
          simp [extract_identity, hn, hchain] at h
          cases h
          exact ⟨rfl, rfl⟩
        | null => simp [extract_identity, hn, hchain] at h
        | bool b => simp [extract_identity, hn, hchain] at h
        | arr xs => simp [extract_identity, hn, hchain] at h
        | obj fields => simp [extract_identity, hn, hchain] at h

/-- Closed instance of C4: a profile whose only id-bearing candidate
locations are all absent extracts to nothing. -/
theorem extract_identity_characterization_witness :
    extract_identity (JValue.obj [(("name"), JValue.str ("A"))]) = none :=
  extract_identity_characterization.2.2.2.2.1
    (JValue.obj [(("name"), JValue.str ("A"))]) rfl rfl rfl

/-- C10: the id fallback chain advances on key absence, not on value
invalidity — whenever the key `sub` is present but holds a value that is
neither a JSON string nor a JSON number, `extract_identity` returns nothing,
whatever the later fallback locations hold. -/
theorem fallback_advances_on_absence_only (profile v : JValue)
    (hsub : profile.get ("sub") = some v)
    (hstr : ∀ s, v ≠ JValue.str s) (hnum : ∀ n, v ≠ JValue.num n) :
    extract_identity profile = none := by
  have hn : profile.isNull = false := get_some_not_null hsub
  cases v with
  | str s => exact absurd rfl (hstr s)
  | num n => exact absurd rfl (hnum n)
  | null => simp [extract_identity, hn, hsub]
  | bool b => simp [extract_identity, hn, hsub]
  | arr xs => simp [extract_identity, hn, hsub]
  | obj fields => simp [extract_identity, hn, hsub]

/-- Closed instance of C10: `sub` holds a boolean while `id` holds a valid
string id, and extraction still returns nothing. -/
theorem fallback_advances_on_absence_only_witness :
    extract_identity (JValue.obj
      [(("sub"), JValue.bool true), (("id"), JValue.str ("x"))]) = none :=
  fallback_advances_on_absence_only
    (JValue.obj [(("sub"), JValue.bool true), (("id"), JValue.str ("x"))])
    (JValue.bool true) rfl (fun _ h => nomatch h) (fun _ h => nomatch h)
